import Mathlib

/-!
Shallow embedding of `src/embedded_utils.hpp` (C++ namespace `utils`).

The header provides three facilities:
  * `copy_every_nth` — strided copy, in a static-extent variant (lines 50-68,
    all constraints checked by `static_assert`) and a dynamic-extent variant
    (lines 70-95, constraints checked at call time);
  * `mean` — arithmetic mean, in a static-extent variant (lines 105-111) and a
    dynamic-extent variant (lines 113-124);
  * `THROW_OR_PANIC` — the error-signaling primitive (lines 29-36).

Modelling conventions:
  * A `std::span<T, Extent>` always satisfies `size() == Extent`, so a view is
    modelled as a `List α` and its extent is the list's length.
  * `std::size_t` values are modelled as `Nat`; all the index arithmetic in
    the header (`i += N`, `destIndex++`, `(size - StartIdx + N - 1) / N`) stays
    far below any overflow, and `StartIdx < 0` on an unsigned type is `false`.
  * `THROW_OR_PANIC` never returns control (it throws or aborts), so the
    dynamic-extent `copy_every_nth` is modelled as returning the final
    destination contents paired with `Option String`: `none` for a normal
    return, `some msg` meaning `THROW_OR_PANIC(msg)` was reached — at which
    point nothing further in the body executes, so the destination component
    is whatever it was at that moment.  The dynamic-extent `mean`, which
    produces a value, is modelled with `Except String` in the same spirit.
  * The `double` accumulator of `mean` (`std::accumulate(…, 0.0)`) is modelled
    exactly over `ℚ`, preserving the accumulation order (a left fold starting
    from zero).
-/

namespace EmbeddedUtils

/-- The outcome of `THROW_OR_PANIC` (lines 29-36): it either raises a
recoverable error carrying the message (`throw std::runtime_error`) or
terminates the process (`std::abort`).  There is deliberately no constructor
for a normal return: the primitive never returns control to its caller. -/
inductive ErrorSignal where
  | raised (message : String)
  | terminated
deriving DecidableEq

/-- `utils::THROW_OR_PANIC` (lines 29-36).  `exceptionsEnabled` models the
build-time `EXCEPTIONS_ENABLED` configuration macro (lines 10-15), fixed once
per build; the `#ifdef` inside the function selects the behavior from it. -/
def THROW_OR_PANIC (exceptionsEnabled : Bool) (message : String) : ErrorSignal :=
  if exceptionsEnabled then ErrorSignal.raised message else ErrorSignal.terminated

namespace StaticExtent

/-- The loop of the static-extent `copy_every_nth` (lines 62-67):

    size_t destIndex = 0;
    for (size_t i = StartIdx; i < SourceExtent && destIndex < DestExtent; i += N)
        destination[destIndex++] = source[i];

`SourceExtent` and `DestExtent` are the lengths of the corresponding spans.
The loop terminates for every `N` (even `N = 0`) because `destIndex`
increases at each iteration and is bounded by the destination length. -/
def copyLoop (N : Nat) (source destination : List α) (i destIndex : Nat) :
    List α :=
  if h : i < source.length ∧ destIndex < destination.length then
    copyLoop N source (destination.set destIndex (source.get ⟨i, h.1⟩))
      (i + N) (destIndex + 1)
  else
    destination
termination_by destination.length - destIndex
decreasing_by simp only [List.length_set]; omega

/-- The `static_assert`s of the static-extent `copy_every_nth` (lines 56-60):
`StartIdx` within the source extent, `N > 0`, and the destination extent at
least `(SourceExtent - StartIdx + N - 1) / N`.  (`StartIdx >= 0` on line 56 is
vacuous for an unsigned type.)  Violations are compile failures, so they
become hypotheses of every theorem about this variant. -/
def staticAsserts (N StartIdx SourceExtent DestExtent : Nat) : Prop :=
  StartIdx < SourceExtent ∧ 0 < N ∧
    (SourceExtent - StartIdx + N - 1) / N ≤ DestExtent

/-- Static-extent `utils::copy_every_nth` (lines 50-68): after the
`static_assert`s, runs the copy loop from `i = StartIdx`, `destIndex = 0`. -/
def copy_every_nth (N StartIdx : Nat) (source destination : List α) : List α :=
  copyLoop N source destination StartIdx 0

/-- Static-extent `utils::mean` (lines 105-111):
`std::accumulate(begin, end, 0.0) / Extent` with `static_assert(Extent > 0)`.
`Extent` is the source length; the `static_assert` becomes a hypothesis. -/
def mean (source : List ℚ) : ℚ :=
  (source.foldl (· + ·) 0) / source.length

end StaticExtent

namespace DynamicExtent

/-- The required-destination-size computation of the dynamic-extent
`copy_every_nth` (line 82): `(std::size(source) - StartIdx + N - 1) / N`,
natural-number (truncating) division. -/
def requiredSize (N StartIdx sourceLen : Nat) : Nat :=
  (sourceLen - StartIdx + N - 1) / N

/-- The loop of the dynamic-extent `copy_every_nth` (lines 90-94):

    size_t destIndex = 0;
    for (std::size_t i = StartIdx; i < std::size(source); i += N)
        destination[destIndex++] = source[i];

Unlike the static-extent loop there is no bound on `destIndex`.  The
`0 < N` conjunct in the guard records `static_assert(N > 0)` (line 75), under
which it is equivalent to the C++ condition `i < std::size(source)`; for
`N = 0` the C++ function does not compile at all. -/
def copyLoop (N : Nat) (source destination : List α) (i destIndex : Nat) :
    List α :=
  if h : i < source.length ∧ 0 < N then
    copyLoop N source (destination.set destIndex (source.get ⟨i, h.1⟩))
      (i + N) (destIndex + 1)
  else
    destination
termination_by source.length - i
decreasing_by omega

/-- Access-instrumented version of `DynamicExtent.copyLoop`: before each write
`destination[destIndex] = source[i]` it additionally checks that `destIndex`
is in bounds for the destination (the C++ loop performs no such check; an
out-of-bounds write through a `std::span` would be undefined behavior).  The
source read `source[i]` is in bounds by the loop condition itself.  Returns
`none` exactly when some write would be out of bounds. -/
def copyLoopChecked (N : Nat) (source destination : List α)
    (i destIndex : Nat) : Option (List α) :=
  if h : i < source.length ∧ 0 < N then
    if destIndex < destination.length then
      copyLoopChecked N source
        (destination.set destIndex (source.get ⟨i, h.1⟩)) (i + N) (destIndex + 1)
    else none
  else some destination
termination_by source.length - i
decreasing_by omega

/-- Dynamic-extent `utils::copy_every_nth` (lines 70-95).  In source order:
  1. `if (StartIdx > std::size(source) or StartIdx < 0) THROW_OR_PANIC("Invalid start index");`
     — `StartIdx` has unsigned type `std::size_t`, so `StartIdx < 0` is
     always false and the guard is exactly `StartIdx > std::size(source)`;
  2. `size_t requiredSize = (std::size(source) - StartIdx + N - 1) / N;`
     `if (requiredSize > std::size(destination)) THROW_OR_PANIC(...);`
  3. the copy loop.
The result pairs the final destination contents with `none` on normal return,
or the untouched destination with `some msg` when `THROW_OR_PANIC(msg)` is
reached (it never returns, so no later statement runs). -/
def copy_every_nth (N StartIdx : Nat) (source destination : List α) :
    List α × Option String :=
  if StartIdx > source.length then
    (destination, some "Invalid start index")
  else if requiredSize N StartIdx source.length > destination.length then
    (destination, some "Destination container does not have sufficient size, ")
  else
    (copyLoop N source destination StartIdx 0, none)

/-- Dynamic-extent `utils::mean` (lines 113-124): signals on an empty view,
otherwise returns `std::accumulate(begin, end, 0.0) / source.size()`.  In the
C++ body the `return` sits after the `if`, but `THROW_OR_PANIC` never
returns, so the accumulation only happens on a nonempty view. -/
def mean (source : List ℚ) : Except String ℚ :=
  if source.isEmpty then
    Except.error "Source container must be non-empty"
  else
    Except.ok ((source.foldl (· + ·) 0) / source.length)

/-- From index `i` at or past the end of the source, `requiredSize` is `0`:
`(0 + N - 1) / N = 0`. -/
lemma requiredSize_of_le (N i sourceLen : Nat) (hN : 0 < N)
    (h : sourceLen ≤ i) : requiredSize N i sourceLen = 0 := by
  unfold requiredSize
  have hz : sourceLen - i = 0 := by omega
  rw [hz]
  exact Nat.div_eq_of_lt (by omega)

/-- From an in-bounds index `i`, `requiredSize` is positive: at least one
element remains to be copied. -/
lemma requiredSize_pos (N i sourceLen : Nat) (hN : 0 < N)
    (h : i < sourceLen) : 0 < requiredSize N i sourceLen := by
  unfold requiredSize
  exact (Nat.one_le_div_iff hN).2 (by omega)

/-- One loop iteration from an in-bounds index `i` decreases `requiredSize`
by exactly one: `requiredSize N i L = requiredSize N (i + N) L + 1`. -/
lemma requiredSize_step (N i sourceLen : Nat) (hN : 0 < N)
    (h : i < sourceLen) :
    requiredSize N i sourceLen = requiredSize N (i + N) sourceLen + 1 := by
  unfold requiredSize
  rcases le_or_lt (i + N) sourceLen with hle | hlt
  · have he : sourceLen - i + N - 1 = (sourceLen - (i + N) + N - 1) + N := by
      omega
    rw [he, Nat.add_div_right _ hN]
  · have hz : sourceLen - (i + N) = 0 := by omega
    rw [hz]
    have h1 : (sourceLen - i + N - 1) / N = 1 := by
      apply Nat.div_eq_of_lt_le (by omega) (by omega)
    have h0 : (0 + N - 1) / N = 0 := Nat.div_eq_of_lt (by omega)
    rw [h1, h0]

/-- Characterization of the dynamic-extent copy loop, by induction on a bound
`m` for the remaining source positions: provided the destination has room for
all remaining writes, the loop preserves the destination length, writes
`source[i + k*N]` to slot `destIndex + k` for every
`k < requiredSize N i source.length`, and leaves every other slot of the
destination unchanged. -/
lemma copyLoop_spec {α : Type} (N : Nat) (hN : 0 < N) (source : List α) :
    ∀ (m i destIndex : Nat) (destination : List α),
      source.length - i ≤ m →
      destIndex + requiredSize N i source.length ≤ destination.length →
      (copyLoop N source destination i destIndex).length =
          destination.length ∧
      (∀ k, k < requiredSize N i source.length →
        (copyLoop N source destination i destIndex)[destIndex + k]? =
          source[i + k * N]?) ∧
      (∀ j, j < destIndex ∨
          destIndex + requiredSize N i source.length ≤ j →
        (copyLoop N source destination i destIndex)[j]? =
          destination[j]?) := by
  intro m
  induction m with
  | zero =>
    intro i destIndex destination hm hcap
    have hge : source.length ≤ i := by omega
    rw [copyLoop, dif_neg (by omega)]
    refine ⟨rfl, ?_, fun j _ => rfl⟩
    intro k hk
    rw [requiredSize_of_le N i source.length hN hge] at hk
    omega
  | succ m ih =>
    intro i destIndex destination hm hcap
    by_cases hi : i < source.length
    · have hstep := requiredSize_step N i source.length hN hi
      have hpos := requiredSize_pos N i source.length hN hi
      have hd : destIndex < destination.length := by omega
      rw [copyLoop, dif_pos ⟨hi, hN⟩]
      have hlen' : (destination.set destIndex (source.get ⟨i, hi⟩)).length =
          destination.length := List.length_set ..
      obtain ⟨ihlen, ihget, ihframe⟩ :=
        ih (i + N) (destIndex + 1)
          (destination.set destIndex (source.get ⟨i, hi⟩))
          (by omega) (by rw [hlen']; omega)
      refine ⟨by rw [ihlen, hlen'], ?_, ?_⟩
      · intro k hk
        match k with
        | 0 =>
          simp only [Nat.add_zero, Nat.zero_mul]
          rw [ihframe destIndex (Or.inl (by omega)),
            List.getElem?_set_self hd, List.getElem?_eq_getElem hi,
            List.get_eq_getElem]
        | k' + 1 =>
          have hx : destIndex + (k' + 1) = (destIndex + 1) + k' := by omega
          have hy : i + (k' + 1) * N = (i + N) + k' * N := by
            rw [Nat.succ_mul]; omega
          rw [hx, hy]
          exact ihget k' (by omega)
      · intro j hj
        have hne : destIndex ≠ j := by omega
        rw [ihframe j (by omega), List.getElem?_set_ne hne]
    · have hge : source.length ≤ i := by omega
      rw [copyLoop, dif_neg (by omega)]
      refine ⟨rfl, ?_, fun j _ => rfl⟩
      intro k hk
      rw [requiredSize_of_le N i source.length hN hge] at hk
      omega

/-- When the destination has room for all remaining writes, every write of
the dynamic-extent copy loop is in bounds: the instrumented loop never
returns `none` and computes the same result as the plain loop. -/
lemma copyLoopChecked_eq (N : Nat) (hN : 0 < N) (source : List α) :
    ∀ (m i destIndex : Nat) (destination : List α),
      source.length - i ≤ m →
      destIndex + requiredSize N i source.length ≤ destination.length →
      copyLoopChecked N source destination i destIndex =
        some (copyLoop N source destination i destIndex) := by
  intro m
  induction m with
  | zero =>
    intro i destIndex destination hm hcap
    have hge : source.length ≤ i := by omega
    rw [copyLoopChecked, dif_neg (by omega), copyLoop, dif_neg (by omega)]
  | succ m ih =>
    intro i destIndex destination hm hcap
    by_cases hi : i < source.length
    · have hstep := requiredSize_step N i source.length hN hi
      have hpos := requiredSize_pos N i source.length hN hi
      have hd : destIndex < destination.length := by omega
      have hlen' : (destination.set destIndex (source.get ⟨i, hi⟩)).length =
          destination.length := List.length_set ..
      rw [copyLoopChecked, dif_pos ⟨hi, hN⟩, if_pos hd,
        copyLoop, dif_pos ⟨hi, hN⟩]
      exact ih (i + N) (destIndex + 1) _ (by omega) (by rw [hlen']; omega)
    · rw [copyLoopChecked, dif_neg (by omega), copyLoop, dif_neg (by omega)]

end DynamicExtent

/-- Under the capacity hypothesis of the static checks, the static-extent
copy loop (which additionally stops when the destination is full) and the
dynamic-extent copy loop (which only stops when the source is exhausted)
compute the same result: the defensive destination bound never fires. -/
lemma StaticExtent.copyLoop_eq_dynamic {α : Type} (N : Nat) (hN : 0 < N)
    (source : List α) :
    ∀ (m i destIndex : Nat) (destination : List α),
      source.length - i ≤ m →
      destIndex + DynamicExtent.requiredSize N i source.length ≤
        destination.length →
      StaticExtent.copyLoop N source destination i destIndex =
        DynamicExtent.copyLoop N source destination i destIndex := by
  intro m
  induction m with
  | zero =>
    intro i destIndex destination hm hcap
    have hge : source.length ≤ i := by omega
    rw [StaticExtent.copyLoop, dif_neg (by omega),
      DynamicExtent.copyLoop, dif_neg (by omega)]
  | succ m ih =>
    intro i destIndex destination hm hcap
    by_cases hi : i < source.length
    · have hstep := DynamicExtent.requiredSize_step N i source.length hN hi
      have hpos := DynamicExtent.requiredSize_pos N i source.length hN hi
      have hd : destIndex < destination.length := by omega
      have hlen' : (destination.set destIndex (source.get ⟨i, hi⟩)).length =
          destination.length := List.length_set ..
      rw [StaticExtent.copyLoop, dif_pos ⟨hi, hd⟩,
        DynamicExtent.copyLoop, dif_pos ⟨hi, hN⟩]
      exact ih (i + N) (destIndex + 1) _ (by omega) (by rw [hlen']; omega)
    · rw [StaticExtent.copyLoop, dif_neg (by omega),
        DynamicExtent.copyLoop, dif_neg (by omega)]

/-- `requiredSize` is exactly the ceiling division `⌈(sourceLen - StartIdx) / N⌉`
of the spec: `(L - s + N - 1) / N = (L - s) ⌈/⌉ N`. -/
lemma requiredSize_eq_ceilDiv (N StartIdx sourceLen : Nat) :
    DynamicExtent.requiredSize N StartIdx sourceLen =
      (sourceLen - StartIdx) ⌈/⌉ N :=
  (Nat.ceilDiv_eq_add_pred_div _ _).symm

/-- C6: the Error Signaling Primitive never returns control to its caller
(its outcome type `ErrorSignal` has no normal-return constructor): for every
message, in the exceptions-enabled build it raises a recoverable error
carrying that message, in the other build it terminates the process, and
which of the two happens depends only on the build-time configuration flag,
never on the particular call's message. -/
theorem THROW_OR_PANIC_spec (exceptionsEnabled : Bool) (message : String) :
    (exceptionsEnabled = true →
      THROW_OR_PANIC exceptionsEnabled message =
        ErrorSignal.raised message) ∧
    (exceptionsEnabled = false →
      THROW_OR_PANIC exceptionsEnabled message = ErrorSignal.terminated) ∧
    (∀ other : String,
      (THROW_OR_PANIC exceptionsEnabled message = ErrorSignal.terminated ↔
        THROW_OR_PANIC exceptionsEnabled other = ErrorSignal.terminated)) := by
  cases exceptionsEnabled <;> simp [THROW_OR_PANIC]

/-- Witness for `THROW_OR_PANIC_spec` at both build configurations with a
concrete message. -/
theorem THROW_OR_PANIC_spec_witness :
    THROW_OR_PANIC true "Invalid start index" =
      ErrorSignal.raised "Invalid start index" ∧
    THROW_OR_PANIC false "Invalid start index" = ErrorSignal.terminated :=
  ⟨(THROW_OR_PANIC_spec true "Invalid start index").1 rfl,
   (THROW_OR_PANIC_spec false "Invalid start index").2.1 rfl⟩

/-- C5: the dynamic-extent `mean` signals "Source container must be
non-empty" exactly when the source view is empty; on every nonempty source it
returns normally (with the accumulated sum divided by the length). -/
theorem mean_signals_iff_empty (source : List ℚ) :
    (source = [] →
      DynamicExtent.mean source =
        Except.error "Source container must be non-empty") ∧
    (source ≠ [] →
      DynamicExtent.mean source =
        Except.ok ((source.foldl (· + ·) (0 : ℚ)) /
          (source.length : ℚ))) := by
  constructor
  · intro h
    subst h
    rfl
  · intro h
    unfold DynamicExtent.mean
    rw [if_neg (by simpa [List.isEmpty_iff] using h)]

/-- Witness for `mean_signals_iff_empty` on the empty view and on a concrete
nonempty view. -/
theorem mean_signals_iff_empty_witness :
    DynamicExtent.mean [] =
      Except.error "Source container must be non-empty" ∧
    DynamicExtent.mean [2, 4, 6] =
      Except.ok ((([2, 4, 6] : List ℚ).foldl (· + ·) (0 : ℚ)) /
        (([2, 4, 6] : List ℚ).length : ℚ)) :=
  ⟨(mean_signals_iff_empty []).1 rfl,
   (mean_signals_iff_empty [2, 4, 6]).2 (List.cons_ne_nil _ _)⟩

/-- C4: both `mean` variants return the left-fold accumulation of the
elements starting from zero divided by the element count, i.e. `(Σ aᵢ) / k`
(the `double` accumulator is modelled exactly over `ℚ`). -/
theorem mean_eq_sum_div (source : List ℚ) (h : source ≠ []) :
    StaticExtent.mean source = source.sum / source.length ∧
    DynamicExtent.mean source =
      Except.ok (source.sum / source.length) := by
  have hf : source.foldl (· + ·) 0 = source.sum := List.sum_eq_foldl.symm
  constructor
  · unfold StaticExtent.mean
    rw [hf]
  · unfold DynamicExtent.mean
    rw [if_neg (by simpa [List.isEmpty_iff] using h), hf]

/-- Witness for `mean_eq_sum_div`: `mean([2.0, 4.0, 6.0]) = 4.0` in both
variants. -/
theorem mean_eq_sum_div_witness :
    StaticExtent.mean [2, 4, 6] = 4 ∧
    DynamicExtent.mean [2, 4, 6] = Except.ok 4 := by
  have h := mean_eq_sum_div [2, 4, 6] (List.cons_ne_nil _ _)
  have hv : ([2, 4, 6] : List ℚ).sum / (([2, 4, 6] : List ℚ).length : ℚ) =
      4 := by
    norm_num [List.sum_cons, List.sum_nil]
  rw [hv] at h
  exact h

/-- C2 counterexample: a call of the dynamic-extent `copy_every_nth` with
`StartIdx` equal to the source length (hence `StartIdx ≥` source length, the
claim's hypothesis) that signals nothing: the guard on line 77 is the strict
comparison `StartIdx > std::size(source)`. -/
theorem copy_every_nth_start_eq_len_not_signaled :
    ([0] : List ℤ).length ≤ 1 ∧
    (DynamicExtent.copy_every_nth 1 1 ([0] : List ℤ) []).2 = none := by
  constructor
  · decide
  · simp [DynamicExtent.copy_every_nth, DynamicExtent.requiredSize]

/-- C2 amended: for every call of the dynamic-extent `copy_every_nth` with
`StartIdx` strictly greater than the source length, the operation signals
"Invalid start index" before any capacity check or copy is performed, and the
destination is returned untouched; `StartIdx` equal to the source length is
accepted without a signal. -/
theorem copy_every_nth_invalid_start {α : Type} (N StartIdx : Nat)
    (source destination : List α) (h : StartIdx > source.length) :
    DynamicExtent.copy_every_nth N StartIdx source destination =
      (destination, some "Invalid start index") := by
  unfold DynamicExtent.copy_every_nth
  rw [if_pos h]

/-- Witness for `copy_every_nth_invalid_start` at `StartIdx = 2` on a
one-element source. -/
theorem copy_every_nth_invalid_start_witness :
    DynamicExtent.copy_every_nth 1 2 ([5] : List ℤ) [0, 0] =
      ([0, 0], some "Invalid start index") :=
  copy_every_nth_invalid_start 1 2 [5] [0, 0] (by decide)

/-- C7: whenever the dynamic-extent `copy_every_nth` signals a validation
failure (invalid start index or insufficient destination capacity), the
destination is exactly as it was before the call: both validations precede
any write. -/
theorem copy_every_nth_error_preserves_destination {α : Type}
    (N StartIdx : Nat) (source destination : List α) (msg : String)
    (h : (DynamicExtent.copy_every_nth N StartIdx source destination).2 =
      some msg) :
    (DynamicExtent.copy_every_nth N StartIdx source destination).1 =
      destination := by
  unfold DynamicExtent.copy_every_nth at h ⊢
  by_cases h1 : StartIdx > source.length
  · rw [if_pos h1]
  · rw [if_neg h1] at h ⊢
    by_cases h2 : DynamicExtent.requiredSize N StartIdx source.length >
        destination.length
    · rw [if_pos h2]
    · rw [if_neg h2] at h
      simp at h

/-- Witness for `copy_every_nth_error_preserves_destination` on a call that
signals an invalid start index: the destination `[7]` is returned unchanged. -/
theorem copy_every_nth_error_preserves_destination_witness :
    (DynamicExtent.copy_every_nth 1 5 ([1] : List ℤ) [7]).2 =
      some "Invalid start index" ∧
    (DynamicExtent.copy_every_nth 1 5 ([1] : List ℤ) [7]).1 = [7] :=
  ⟨by rfl,
   copy_every_nth_error_preserves_destination 1 5 [1] [7]
    "Invalid start index" (by rfl)⟩

/-- C10: the dynamic-extent `copy_every_nth` accepts `StartIdx` exactly equal
to the source length: no signal, the required size computes to `0`, the loop
runs zero iterations, and the destination (of any length, including `0`) is
returned unchanged. -/
theorem copy_every_nth_start_eq_length_ok {α : Type} (N : Nat) (hN : 0 < N)
    (source destination : List α) :
    DynamicExtent.requiredSize N source.length source.length = 0 ∧
    DynamicExtent.copy_every_nth N source.length source destination =
      (destination, none) := by
  have h0 : DynamicExtent.requiredSize N source.length source.length = 0 :=
    DynamicExtent.requiredSize_of_le N _ _ hN le_rfl
  refine ⟨h0, ?_⟩
  unfold DynamicExtent.copy_every_nth
  rw [if_neg (by omega), if_neg (by omega),
    DynamicExtent.copyLoop, dif_neg (by omega)]

/-- Witness for `copy_every_nth_start_eq_length_ok` with `StartIdx = 3` on a
three-element source and an empty destination. -/
theorem copy_every_nth_start_eq_length_ok_witness :
    DynamicExtent.requiredSize 2 ([1, 2, 3] : List ℤ).length
      ([1, 2, 3] : List ℤ).length = 0 ∧
    DynamicExtent.copy_every_nth 2 ([1, 2, 3] : List ℤ).length
      ([1, 2, 3] : List ℤ) [] = ([], none) :=
  copy_every_nth_start_eq_length_ok 2 (by decide) [1, 2, 3] []

/-- C1: for every stride `N > 0`, start index `StartIdx < S`, and destination
with room for the required count — which equals `⌈(S - StartIdx) / N⌉` —
both strided-copy variants write exactly that many elements: slot `k` of the
result holds `source[StartIdx + k * N]` for every `k` below the count, every
later slot keeps its previous value, and the dynamic-extent variant returns
the same result with no signal. -/
theorem copy_every_nth_correct {α : Type} (N StartIdx : Nat)
    (source destination : List α) (hN : 0 < N)
    (hstart : StartIdx < source.length)
    (hcap : DynamicExtent.requiredSize N StartIdx source.length ≤
      destination.length) :
    DynamicExtent.requiredSize N StartIdx source.length =
      (source.length - StartIdx) ⌈/⌉ N ∧
    ∃ r : List α,
      StaticExtent.copy_every_nth N StartIdx source destination = r ∧
      DynamicExtent.copy_every_nth N StartIdx source destination =
        (r, none) ∧
      r.length = destination.length ∧
      (∀ k, k < DynamicExtent.requiredSize N StartIdx source.length →
        r[k]? = source[StartIdx + k * N]?) ∧
      (∀ k, DynamicExtent.requiredSize N StartIdx source.length ≤ k →
        r[k]? = destination[k]?) := by
  obtain ⟨hlen, hget, hframe⟩ :=
    DynamicExtent.copyLoop_spec N hN source source.length StartIdx 0
      destination (by omega) (by omega)
  refine ⟨requiredSize_eq_ceilDiv N StartIdx source.length,
    DynamicExtent.copyLoop N source destination StartIdx 0,
    ?_, ?_, hlen, ?_, ?_⟩
  · unfold StaticExtent.copy_every_nth
    exact StaticExtent.copyLoop_eq_dynamic N hN source source.length StartIdx
      0 destination (by omega) (by omega)
  · unfold DynamicExtent.copy_every_nth
    rw [if_neg (by omega), if_neg (by omega)]
  · intro k hk
    have hg := hget k hk
    rwa [Nat.zero_add] at hg
  · intro k hk
    exact hframe k (Or.inr (by omega))

/-- Witness for `copy_every_nth_correct` on the spec's example
`source = [1, 2, 3, 4]`, `N = 3`, `StartIdx = 1`, one-slot destination,
together with the concrete evaluation showing the result is `[2]`. -/
theorem copy_every_nth_correct_witness :
    (DynamicExtent.requiredSize 3 1 ([1, 2, 3, 4] : List ℤ).length =
      (([1, 2, 3, 4] : List ℤ).length - 1) ⌈/⌉ 3 ∧
    ∃ r : List ℤ,
      StaticExtent.copy_every_nth 3 1 [1, 2, 3, 4] [0] = r ∧
      DynamicExtent.copy_every_nth 3 1 [1, 2, 3, 4] [0] = (r, none) ∧
      r.length = ([0] : List ℤ).length ∧
      (∀ k, k < DynamicExtent.requiredSize 3 1
          ([1, 2, 3, 4] : List ℤ).length →
        r[k]? = ([1, 2, 3, 4] : List ℤ)[1 + k * 3]?) ∧
      (∀ k, DynamicExtent.requiredSize 3 1
          ([1, 2, 3, 4] : List ℤ).length ≤ k →
        r[k]? = ([0] : List ℤ)[k]?)) ∧
    DynamicExtent.copy_every_nth 3 1 ([1, 2, 3, 4] : List ℤ) [0] =
      ([2], none) := by
  constructor
  · exact copy_every_nth_correct 3 1 [1, 2, 3, 4] [0] (by decide) (by decide)
      (by decide)
  · simp [DynamicExtent.copy_every_nth, DynamicExtent.requiredSize,
      DynamicExtent.copyLoop]

/-- C3: with a valid start index (`StartIdx ≤ S`), the dynamic-extent strided
copy signals insufficient destination capacity exactly when the destination
length is strictly below the required count `⌈(S - StartIdx) / N⌉`; when the
destination length equals the required count, the call succeeds and fills the
destination completely. -/
theorem copy_every_nth_capacity_check {α : Type} (N StartIdx : Nat)
    (source destination : List α) (hN : 0 < N)
    (hstart : StartIdx ≤ source.length) :
    ((DynamicExtent.copy_every_nth N StartIdx source destination).2 =
        some "Destination container does not have sufficient size, " ↔
      destination.length <
        DynamicExtent.requiredSize N StartIdx source.length) ∧
    (destination.length =
        DynamicExtent.requiredSize N StartIdx source.length →
      ∃ r : List α,
        DynamicExtent.copy_every_nth N StartIdx source destination =
          (r, none) ∧
        r.length = destination.length ∧
        ∀ k, k < destination.length →
          r[k]? = source[StartIdx + k * N]?) := by
  constructor
  · by_cases h2 : DynamicExtent.requiredSize N StartIdx source.length >
        destination.length
    · unfold DynamicExtent.copy_every_nth
      rw [if_neg (by omega), if_pos h2]
      exact ⟨fun _ => by omega, fun _ => rfl⟩
    · unfold DynamicExtent.copy_every_nth
      rw [if_neg (by omega), if_neg h2]
      constructor
      · intro hcontra
        simp at hcontra
      · intro hlt
        omega
  · intro heq
    obtain ⟨hlen, hget, hframe⟩ :=
      DynamicExtent.copyLoop_spec N hN source source.length StartIdx 0
        destination (by omega) (by omega)
    refine ⟨DynamicExtent.copyLoop N source destination StartIdx 0, ?_,
      hlen, ?_⟩
    · unfold DynamicExtent.copy_every_nth
      rw [if_neg (by omega), if_neg (by omega)]
    · intro k hk
      have hg := hget k (by omega)
      rwa [Nat.zero_add] at hg

/-- Witness for `copy_every_nth_capacity_check`: with `N = 2`, `StartIdx = 0`
on a five-element source the required count is `3`; a two-slot destination is
signalled as insufficient, a three-slot destination is filled completely. -/
theorem copy_every_nth_capacity_check_witness :
    (DynamicExtent.copy_every_nth 2 0 ([10, 20, 30, 40, 50] : List ℤ)
        [0, 0]).2 =
      some "Destination container does not have sufficient size, " ∧
    (∃ r : List ℤ,
      DynamicExtent.copy_every_nth 2 0 [10, 20, 30, 40, 50] [0, 0, 0] =
        (r, none) ∧
      r.length = ([0, 0, 0] : List ℤ).length ∧
      ∀ k, k < ([0, 0, 0] : List ℤ).length →
        r[k]? = ([10, 20, 30, 40, 50] : List ℤ)[0 + k * 2]?) := by
  constructor
  · exact (copy_every_nth_capacity_check 2 0 [10, 20, 30, 40, 50] [0, 0]
      (by decide) (by decide)).1.mpr (by decide)
  · exact (copy_every_nth_capacity_check 2 0 [10, 20, 30, 40, 50] [0, 0, 0]
      (by decide) (by decide)).2 (by decide)

/-- C8: the static-extent copy loop stops when the source is exhausted or the
destination is full, and under the `static_assert` constraints the
destination-full bound is a defensive check that never triggers: the copy
computes exactly what the loop with only the source-exhaustion condition (the
dynamic-extent loop) computes, so termination is always by source
exhaustion. -/
theorem static_copy_dest_bound_never_triggers {α : Type} (N StartIdx : Nat)
    (source destination : List α)
    (h : StaticExtent.staticAsserts N StartIdx source.length
      destination.length) :
    StaticExtent.copy_every_nth N StartIdx source destination =
      DynamicExtent.copyLoop N source destination StartIdx 0 := by
  obtain ⟨h1, h2, h3⟩ := h
  unfold StaticExtent.copy_every_nth
  exact StaticExtent.copyLoop_eq_dynamic N h2 source source.length StartIdx 0
    destination (by omega)
    (by simp only [Nat.zero_add, DynamicExtent.requiredSize]; exact h3)

/-- Witness for `static_copy_dest_bound_never_triggers` with `N = 2`,
`StartIdx = 0`, a five-element source and a three-slot destination. -/
theorem static_copy_dest_bound_never_triggers_witness :
    StaticExtent.copy_every_nth 2 0 ([10, 20, 30, 40, 50] : List ℤ)
        [0, 0, 0] =
      DynamicExtent.copyLoop 2 [10, 20, 30, 40, 50] [0, 0, 0] 0 0 :=
  static_copy_dest_bound_never_triggers 2 0 [10, 20, 30, 40, 50] [0, 0, 0]
    (by simp only [StaticExtent.staticAsserts]; decide)

/-- C9: when both validations of the dynamic-extent strided copy pass
(`StartIdx ≤` source length and required size `≤` destination length), every
access of the copy loop is in bounds even though the loop checks no
destination bound: each source read index is below the source length by the
loop guard itself, and the instrumented loop that checks every destination
write index against the destination length never fails and agrees with the
actual loop. -/
theorem dynamic_copy_accesses_in_bounds {α : Type} (N StartIdx : Nat)
    (source destination : List α) (hN : 0 < N)
    (hstart : StartIdx ≤ source.length)
    (hcap : DynamicExtent.requiredSize N StartIdx source.length ≤
      destination.length) :
    DynamicExtent.copyLoopChecked N source destination StartIdx 0 =
      some (DynamicExtent.copyLoop N source destination StartIdx 0) :=
  DynamicExtent.copyLoopChecked_eq N hN source source.length StartIdx 0
    destination (by omega) (by omega)

/-- Witness for `dynamic_copy_accesses_in_bounds` with `N = 2`,
`StartIdx = 0`, a five-element source and a three-slot destination. -/
theorem dynamic_copy_accesses_in_bounds_witness :
    DynamicExtent.copyLoopChecked 2 ([10, 20, 30, 40, 50] : List ℤ)
        [0, 0, 0] 0 0 =
      some (DynamicExtent.copyLoop 2 ([10, 20, 30, 40, 50] : List ℤ)
        [0, 0, 0] 0 0) :=
  dynamic_copy_accesses_in_bounds 2 0 [10, 20, 30, 40, 50] [0, 0, 0]
    (by decide) (by decide) (by decide)

end EmbeddedUtils
